import Mathlib

/-!
Shallow embedding of the real-time sound synthesis core of the
gamercade_console repository, together with theorems checking the
natural-language specification against it.

Embedded from the source:
  - src/src/instruments/wavetable/wavetable_instance.rs
      (WavetableInstance and its tick / set_frequency / set_active /
       trigger methods; the derived Clone implementation)
  - src/src/fm/algorithm.rs
      (Algorithm, ModulatedBy, AlgorithmDefinition, Algorithm::get_definition)
  - src/gamercade_audio/src/bin/rollback.rs
      (the real-time audio callback and the frame-producer loop)

The oscillator, envelope and bit-depth types used by WavetableInstance are
declared outside the available source tree; they are modelled from the
specification text, as marked on each definition.

Rust f32 arithmetic is idealised as exact rational arithmetic (ℚ); machine
integers are ℕ with explicit wrapping where the source wraps.  Rust panics
(slice indexing out of range, Result::unwrap) are modelled as Option.none.
-/

namespace Gamercade

/-- Modelled from the spec: `ActiveState` is one of Off, On, Trigger
(spec section 3); the type itself is declared outside the available
source tree. -/
inductive ActiveState where
  | Off
  | On
  | Trigger
deriving DecidableEq

/-- Modelled from the spec: the wavetable bit depth is 0–255 (u8), so
`WavetableBitDepth::MAX` is 255; the type alias is declared outside the
available source tree. -/
def wavetableBitDepthMax : ℕ := 255

/-- Floating-point modulo on ℚ: the remainder of q modulo l lying in
[0, l) for 0 ≤ q and 0 < l.  Used to model the oscillator phase wrap. -/
def fmod (q l : ℚ) : ℚ := q - l * ⌊q / l⌋

/-- Modelled from the spec: the per-voice `Oscillator` holds
phase, frequency, table_length and output_sample_rate (spec section 3);
its Rust declaration is outside the available source tree. -/
structure WavetableOscillator where
  phase : ℚ
  frequency : ℚ
  tableLength : ℕ
  outputSampleRate : ℕ
deriving DecidableEq

namespace WavetableOscillator

/-- Modelled from the spec: a fresh oscillator for a table of the given
length at the given output sample rate; phase starts at zero and no
frequency has been set yet. -/
def new (tableLength outputSampleRate : ℕ) : WavetableOscillator :=
  { phase := 0, frequency := 0, tableLength := tableLength,
    outputSampleRate := outputSampleRate }

/-- Modelled from the spec: phase-increment-per-tick is
table_length * frequency / output_sample_rate (spec section 4.1). -/
def increment (o : WavetableOscillator) : ℚ :=
  o.tableLength * o.frequency / o.outputSampleRate

/-- Modelled from the spec: `set_frequency(hz)` updates the stored
frequency (and hence the derived phase increment). -/
def set_frequency (o : WavetableOscillator) (hz : ℚ) : WavetableOscillator :=
  { o with frequency := hz }

/-- Modelled from the spec: `tick()` advances the phase by the increment,
wraps it modulo table_length, and returns the pre-advance phase value
(spec section 4.1). -/
def tick (o : WavetableOscillator) : WavetableOscillator × ℚ :=
  ({ o with phase := fmod (o.phase + o.increment) o.tableLength }, o.phase)

end WavetableOscillator

/-- Modelled from the spec: `EnvelopeInstance` is a per-voice multi-stage
amplitude state machine driven by the voice activity state (spec sections
3 and 4.4); its Rust declaration is outside the available source tree.
It is modelled abstractly: some internal state of type E together with a
transition rule producing the next state and the current amplitude. -/
structure EnvelopeInstance (E : Type) where
  state : E
  rule : E → ActiveState → E × ℚ

/-- Modelled from the spec: ticking the envelope advances its internal
state machine under the given activity state and yields the current
amplitude. -/
def EnvelopeInstance.tick {E : Type} (env : EnvelopeInstance E)
    (active : ActiveState) : EnvelopeInstance E × ℚ :=
  let r := env.rule env.state active
  ({ env with state := r.1 }, r.2)

/-- The immutable wavetable definition: an ordered sequence of quantized
sample values (u8, embedded as ℕ).  Mirrors the `data` field used by
`WavetableInstance::tick`; the envelope shape descriptor it also carries
is represented inside the abstract `EnvelopeInstance` model. -/
structure WavetableDefinition where
  data : List ℕ
deriving DecidableEq

/-- One wavetable voice, embedded from `WavetableInstance` in
src/src/instruments/wavetable/wavetable_instance.rs: a shared immutable
definition, a private envelope, a private oscillator and an activity
flag. -/
structure WavetableInstance (E : Type) where
  definition : WavetableDefinition
  envelope : EnvelopeInstance E
  oscillator : WavetableOscillator
  active : ActiveState

namespace WavetableInstance

/-- The derived `Clone` implementation: every field is copied; the
`Arc<WavetableDefinition>` clone shares the same immutable definition,
and oscillator, envelope and activity flag are plain value copies. -/
def clone {E : Type} (v : WavetableInstance E) : WavetableInstance E :=
  { definition := v.definition, envelope := v.envelope,
    oscillator := v.oscillator, active := v.active }

/-- `WavetableInstance::set_frequency`: forwards to the oscillator. -/
def set_frequency {E : Type} (v : WavetableInstance E) (hz : ℚ) :
    WavetableInstance E :=
  { v with oscillator := v.oscillator.set_frequency hz }

/-- `WavetableInstance::tick`, embedded line by line from the source:
read the oscillator (already advancing it), interpolate between the
current and next table entries using the fractional part of the phase,
tick the envelope, clear a Trigger to Off, and return the enveloped
sample.  Out-of-range slice indexing (a Rust panic) is Option.none. -/
def tick {E : Type} (v : WavetableInstance E) :
    Option (WavetableInstance E × ℚ) :=
  let t := v.oscillator.tick
  let index : ℚ := t.2
  let next_weight : ℚ := index - ⌊index⌋
  let index_weight : ℚ := 1 - next_weight
  let i : ℕ := (⌊index⌋).toNat
  let next : ℕ := (i + 1) % v.definition.data.length
  match v.definition.data.get? i, v.definition.data.get? next with
  | some a, some b =>
      let av : ℚ := (a : ℚ) / wavetableBitDepthMax
      let bv : ℚ := (b : ℚ) / wavetableBitDepthMax
      let output : ℚ := av * index_weight + bv * next_weight
      let e := v.envelope.tick v.active
      let newActive : ActiveState :=
        if v.active = ActiveState.Trigger then ActiveState.Off else v.active
      some ({ v with oscillator := t.1, envelope := e.1, active := newActive },
            output * e.2)
  | _, _ => none

/-- `WavetableInstance::set_active`: true maps to On, false to Off. -/
def set_active {E : Type} (v : WavetableInstance E) (active : Bool) :
    WavetableInstance E :=
  { v with active := if active then ActiveState.On else ActiveState.Off }

/-- `WavetableInstance::trigger`: sets the activity state to Trigger. -/
def trigger {E : Type} (v : WavetableInstance E) : WavetableInstance E :=
  { v with active := ActiveState.Trigger }

end WavetableInstance

/-- One externally visible call on a voice, used to interleave identical
call sequences on an original and on a clone. -/
inductive VoiceOp where
  | tick
  | setFrequency (hz : ℚ)
  | setActive (b : Bool)
  | trigger

/-- Run a sequence of voice operations, collecting the sample produced by
each tick; a Rust panic inside any tick aborts the whole run (none). -/
def runOps {E : Type} : List VoiceOp → WavetableInstance E →
    Option (WavetableInstance E × List ℚ)
  | [], v => some (v, [])
  | VoiceOp.tick :: rest, v =>
      match v.tick with
      | none => none
      | some (v2, s) =>
          match runOps rest v2 with
          | none => none
          | some (vf, outs) => some (vf, s :: outs)
  | VoiceOp.setFrequency hz :: rest, v => runOps rest (v.set_frequency hz)
  | VoiceOp.setActive b :: rest, v => runOps rest (v.set_active b)
  | VoiceOp.trigger :: rest, v => runOps rest (v.trigger)

/-! FM algorithm graph, embedded from src/src/fm/algorithm.rs. -/

/-- `ModulatedBy`: which already-computed operators modulate an operator. -/
inductive ModulatedBy where
  | None
  | Single (a : ℕ)
  | Double (a b : ℕ)
  | Triple (a b c : ℕ)
deriving DecidableEq

/-- `AlgorithmDefinition`: carrier flags for the 4 operators and the
modulation routing entries for operators 1..=3 (OPERATOR_COUNT = 4). -/
structure AlgorithmDefinition where
  carriers : List Bool
  modulators : List ModulatedBy
deriving DecidableEq

/-- `Algorithm`: a newtype over the algorithm index (u8). -/
structure Algorithm where
  val : ℕ
deriving DecidableEq

/-- `Algorithm::get_definition`, embedded case by case from the source;
the panic on an invalid algorithm value is Option.none. -/
def Algorithm.get_definition (a : Algorithm) : Option AlgorithmDefinition :=
  match a.val with
  | 0 => some { carriers := [false, false, false, true],
                modulators := [ModulatedBy.Single 0, ModulatedBy.Single 1,
                               ModulatedBy.Single 2] }
  | 1 => some { carriers := [false, false, false, true],
                modulators := [ModulatedBy.None, ModulatedBy.Double 0 1,
                               ModulatedBy.Single 2] }
  | 2 => some { carriers := [false, false, false, true],
                modulators := [ModulatedBy.Single 0, ModulatedBy.None,
                               ModulatedBy.Double 1 2] }
  | 3 => some { carriers := [false, false, false, true],
                modulators := [ModulatedBy.Single 0, ModulatedBy.Single 0,
                               ModulatedBy.Double 1 2] }
  | 4 => some { carriers := [false, false, false, true],
                modulators := [ModulatedBy.None, ModulatedBy.None,
                               ModulatedBy.Triple 0 1 2] }
  | 5 => some { carriers := [false, false, true, true],
                modulators := [ModulatedBy.Single 0, ModulatedBy.Single 1,
                               ModulatedBy.None] }
  | 6 => some { carriers := [false, false, true, true],
                modulators := [ModulatedBy.Single 0, ModulatedBy.Single 1,
                               ModulatedBy.Single 1] }
  | 7 => some { carriers := [false, true, false, true],
                modulators := [ModulatedBy.Single 0, ModulatedBy.None,
                               ModulatedBy.Single 2] }
  | 8 => some { carriers := [false, true, true, true],
                modulators := [ModulatedBy.Single 0, ModulatedBy.Single 0,
                               ModulatedBy.Single 0] }
  | 9 => some { carriers := [false, true, true, true],
                modulators := [ModulatedBy.Single 0, ModulatedBy.Single 0,
                               ModulatedBy.None] }
  | 10 => some { carriers := [false, true, true, true],
                 modulators := [ModulatedBy.Single 0, ModulatedBy.None,
                                ModulatedBy.None] }
  | 11 => some { carriers := [true, true, true, true],
                 modulators := [ModulatedBy.None, ModulatedBy.None,
                                ModulatedBy.None] }
  | _ => none

/-- The operator indices referenced by one ModulatedBy entry. -/
def ModulatedBy.mods : ModulatedBy → List ℕ
  | ModulatedBy.None => []
  | ModulatedBy.Single a => [a]
  | ModulatedBy.Double a b => [a, b]
  | ModulatedBy.Triple a b c => [a, b, c]

/-- Dependency safety of one algorithm definition: every operator index
referenced by the entry modulators[j] (the entry for operator j + 1) is
strictly below j + 1. -/
def modsBelow (d : AlgorithmDefinition) : Bool :=
  (List.range d.modulators.length).all fun j =>
    ((d.modulators.getD j ModulatedBy.None).mods).all fun m =>
      decide (m < j + 1)

/-! The real-time audio callback, embedded from the build_output_stream
closure in src/gamercade_audio/src/bin/rollback.rs.  The sample type is
kept abstract (the code only moves values); the inner sample queue and
the outer frame queue are lists with their front as the next pop, and
each println of a starved / no-next-frame condition is counted. -/

/-- State carried by the audio callback between stereo frames. -/
structure CallbackState (α : Type) where
  consumer : List α
  bufferQueue : List (List α)
  framesRead : ℕ
  starvedLogs : ℕ
  noFrameLogs : ℕ
deriving DecidableEq

/-- One iteration of the callback's frame loop: count the frame, try to
pop one sample (on failure only log — the output slot keeps whatever it
already held), and after a full game frame of samples try to swap the
inner buffer for the next queued one (on failure only log). -/
def processFrame {α : Type} (outputBufferLen : ℕ) (st : CallbackState α)
    (frame : α × α) : CallbackState α × (α × α) :=
  let framesRead := st.framesRead + 1
  let r : List α × (α × α) × ℕ :=
    match st.consumer with
    | [] => (st.consumer, frame, st.starvedLogs + 1)
    | s :: rest => (rest, (s, s), st.starvedLogs)
  let st2 : CallbackState α :=
    { st with consumer := r.1, framesRead := framesRead, starvedLogs := r.2.2 }
  if framesRead = outputBufferLen then
    match st2.bufferQueue with
    | [] => ({ st2 with noFrameLogs := st2.noFrameLogs + 1, framesRead := 0 },
             r.2.1)
    | b :: bs =>
        ({ st2 with consumer := b, bufferQueue := bs, framesRead := 0 }, r.2.1)
  else (st2, r.2.1)

/-- The whole callback body: fold processFrame over the stereo frames of
the caller-owned output buffer, returning the final state and the buffer
contents after the callback ran. -/
def audioCallback {α : Type} (outputBufferLen : ℕ) (st : CallbackState α) :
    List (α × α) → CallbackState α × List (α × α)
  | [] => (st, [])
  | frame :: rest =>
      let r := processFrame outputBufferLen st frame
      let r2 := audioCallback outputBufferLen r.1 rest
      (r2.1, r.2 :: r2.2)

/-! The frame-producer loop, embedded from the spawned thread in
src/gamercade_audio/src/bin/rollback.rs. -/

/-- ROLLBACK_FRAMES from the source. -/
def ROLLBACK_FRAMES : ℕ := 60

/-- Push onto the outer frame queue of capacity 2; none models the
Err branch of rtrb's push onto a full ring buffer. -/
def pushCap2 {β : Type} (q : List β) (x : β) : Option (List β) :=
  if q.length < 2 then some (q ++ [x]) else none

/-- State owned by the producer thread between loop iterations. -/
structure ProducerState (E : Type) where
  queue : List (List ℚ)
  osci : WavetableInstance E
  prev : WavetableInstance E
  frameCount : ℕ

/-- One iteration of the producer loop: if the outer queue is not full,
render exactly one game frame of audio (outputBufferLen ticks of the
voice) and push it, then either roll the voice back to the stored
snapshot (after ROLLBACK_FRAMES frames) or store a fresh snapshot;
if the queue is full, just sleep until the next scheduling tick.
A panic inside a tick or inside the push unwrap is none. -/
def producerIter {E : Type} (outputBufferLen : ℕ) (st : ProducerState E) :
    Option (ProducerState E) :=
  if st.queue.length < 2 then
    match runOps (List.replicate outputBufferLen VoiceOp.tick) st.osci with
    | none => none
    | some (osci2, buf) =>
        match pushCap2 st.queue buf with
        | none => none
        | some q2 =>
            let fc := st.frameCount + 1
            if ROLLBACK_FRAMES < fc then
              some { queue := q2, osci := st.prev.clone, prev := st.prev,
                     frameCount := 0 }
            else
              some { queue := q2, osci := osci2, prev := osci2.clone,
                     frameCount := fc }
  else
    some st

/-! Concrete test fixtures. -/

/-- An envelope model whose amplitude is fixed at 1 in every state. -/
def constEnv : EnvelopeInstance Unit :=
  { state := (), rule := fun s _ => (s, 1) }

/-- The spec's end-to-end table: [0, 127, 255, 127] at bit depth 0–255. -/
def testDef : WavetableDefinition := { data := [0, 127, 255, 127] }

/-- An oscillator over a 4-entry table at sample rate 4 with frequency 1,
so one table cycle spans exactly 4 ticks (increment 1). -/
def testOsc (p : ℚ) : WavetableOscillator :=
  { phase := p, frequency := 1, tableLength := 4, outputSampleRate := 4 }

/-- The spec's end-to-end voice, at a given oscillator phase. -/
def testVoiceAt (p : ℚ) : WavetableInstance Unit :=
  { definition := testDef, envelope := constEnv, oscillator := testOsc p,
    active := ActiveState.On }

/-- The spec's end-to-end voice at its initial phase 0. -/
def testVoice : WavetableInstance Unit := testVoiceAt 0

/-- A minimal silent voice over the one-entry table [0]. -/
def zeroVoice : WavetableInstance Unit :=
  { definition := { data := [0] }, envelope := constEnv,
    oscillator := WavetableOscillator.new 1 4, active := ActiveState.Off }

/-- A producer state holding the silent voice and an empty outer queue. -/
def zeroProducer : ProducerState Unit :=
  { queue := [], osci := zeroVoice, prev := zeroVoice, frameCount := 0 }

/-! Helper lemmas. -/

theorem floor_toNat_lt_of_lt {p : ℚ} {l : ℕ} (h0 : 0 ≤ p) (h1 : p < l) :
    (⌊p⌋).toNat < l := by
  have hf : ⌊p⌋ < (l : ℤ) := Int.floor_lt.mpr (by exact_mod_cast h1)
  have hnn : 0 ≤ ⌊p⌋ := Int.floor_nonneg.mpr h0
  omega

theorem tv_tick_0 : (testVoiceAt 0).tick = some (testVoiceAt 1, 0) := by
  norm_num [testVoiceAt, testOsc, testDef, constEnv, WavetableInstance.tick,
    WavetableOscillator.tick, WavetableOscillator.increment, fmod,
    EnvelopeInstance.tick, wavetableBitDepthMax]
  try simp
  try norm_num

theorem tv_tick_1 : (testVoiceAt 1).tick = some (testVoiceAt 2, 127 / 255) := by
  norm_num [testVoiceAt, testOsc, testDef, constEnv, WavetableInstance.tick,
    WavetableOscillator.tick, WavetableOscillator.increment, fmod,
    EnvelopeInstance.tick, wavetableBitDepthMax]
  try simp
  try norm_num

theorem tv_tick_2 : (testVoiceAt 2).tick = some (testVoiceAt 3, 1) := by
  norm_num [testVoiceAt, testOsc, testDef, constEnv, WavetableInstance.tick,
    WavetableOscillator.tick, WavetableOscillator.increment, fmod,
    EnvelopeInstance.tick, wavetableBitDepthMax]
  try simp
  try norm_num

theorem tv_tick_3 : (testVoiceAt 3).tick = some (testVoiceAt 0, 127 / 255) := by
  norm_num [testVoiceAt, testOsc, testDef, constEnv, WavetableInstance.tick,
    WavetableOscillator.tick, WavetableOscillator.increment, fmod,
    EnvelopeInstance.tick, wavetableBitDepthMax]
  try simp
  try norm_num

theorem testVoice_cycle :
    runOps (List.replicate 4 VoiceOp.tick) testVoice
      = some (testVoice, [0, 127 / 255, 1, 127 / 255]) := by
  simp [testVoice, runOps, List.replicate, tv_tick_0, tv_tick_1, tv_tick_2,
    tv_tick_3]

theorem runOps_append {E : Type} (l1 l2 : List VoiceOp)
    (v : WavetableInstance E) :
    runOps (l1 ++ l2) v =
      match runOps l1 v with
      | none => none
      | some r =>
          match runOps l2 r.1 with
          | none => none
          | some r2 => some (r2.1, r.2 ++ r2.2) := by
  induction l1 generalizing v with
  | nil =>
      cases h : runOps l2 v with
      | none => simp [runOps, h]
      | some r2 => simp [runOps, h]
  | cons op rest ih =>
      cases op with
      | tick =>
          simp only [List.cons_append, runOps, List.append_eq]
          cases h : v.tick with
          | none => rfl
          | some r =>
              obtain ⟨v2, s⟩ := r
              dsimp only
              rw [ih]
              cases h1 : runOps rest v2 with
              | none => rfl
              | some r1 =>
                  obtain ⟨vf, outs⟩ := r1
                  dsimp only
                  cases h2 : runOps l2 vf with
                  | none => rfl
                  | some r2 => rfl
      | setFrequency hz =>
          simp only [List.cons_append, runOps]
          exact ih _
      | setActive b =>
          simp only [List.cons_append, runOps]
          exact ih _
      | trigger =>
          simp only [List.cons_append, runOps]
          exact ih _

theorem tick_eq_of_lt {E : Type} (v : WavetableInstance E)
    (h0 : 0 ≤ v.oscillator.phase)
    (h1 : v.oscillator.phase < (v.definition.data.length : ℚ)) :
    v.tick = some
      ({ v with oscillator := (v.oscillator.tick).1,
                envelope := (v.envelope.tick v.active).1,
                active := if v.active = ActiveState.Trigger
                  then ActiveState.Off else v.active },
       ((v.definition.data.getD (⌊v.oscillator.phase⌋).toNat 0 : ℚ)
           / (wavetableBitDepthMax : ℚ)
           * (1 - (v.oscillator.phase - (⌊v.oscillator.phase⌋ : ℚ)))
         + (v.definition.data.getD
             (((⌊v.oscillator.phase⌋).toNat + 1) % v.definition.data.length) 0 : ℚ)
           / (wavetableBitDepthMax : ℚ)
           * (v.oscillator.phase - (⌊v.oscillator.phase⌋ : ℚ)))
       * (v.envelope.tick v.active).2) := by
  have hi : (⌊v.oscillator.phase⌋).toNat < v.definition.data.length :=
    floor_toNat_lt_of_lt h0 (by exact_mod_cast h1)
  have hL : 0 < v.definition.data.length :=
    Nat.lt_of_le_of_lt (Nat.zero_le _) hi
  have hn : ((⌊v.oscillator.phase⌋).toNat + 1) % v.definition.data.length
      < v.definition.data.length := Nat.mod_lt _ hL
  unfold WavetableInstance.tick
  simp only [WavetableOscillator.tick]
  rw [List.get?_eq_get hi, List.get?_eq_get hn,
    List.getD_eq_get _ _ hi, List.getD_eq_get _ _ hn]

theorem testVoice_periodic (k : ℕ) :
    runOps (List.replicate (4 * k) VoiceOp.tick) testVoice
      = some (testVoice,
          (List.replicate k ([0, 127 / 255, 1, 127 / 255] : List ℚ)).flatten) := by
  induction k with
  | zero => simp [runOps]
  | succ n ih =>
      have hrep : List.replicate (4 * (n + 1)) VoiceOp.tick
          = List.replicate 4 VoiceOp.tick ++ List.replicate (4 * n) VoiceOp.tick := by
        rw [← List.replicate_add]
        congr 1
        ring
      rw [hrep, runOps_append, testVoice_cycle]
      dsimp only
      rw [ih]
      simp [List.replicate_succ]

theorem zeroVoice_tick : zeroVoice.tick = some (zeroVoice, 0) := by
  norm_num [zeroVoice, constEnv, WavetableOscillator.new,
    WavetableInstance.tick, WavetableOscillator.tick,
    WavetableOscillator.increment, fmod, EnvelopeInstance.tick,
    wavetableBitDepthMax]
  try simp
  try norm_num

theorem zeroTrig_tick : zeroVoice.trigger.tick = some (zeroVoice, 0) := by
  norm_num [zeroVoice, constEnv, WavetableOscillator.new,
    WavetableInstance.tick, WavetableInstance.trigger,
    WavetableOscillator.tick, WavetableOscillator.increment, fmod,
    EnvelopeInstance.tick, wavetableBitDepthMax]
  try simp
  try norm_num

theorem processFrame_starved {α : Type} (len : ℕ) (st : CallbackState α)
    (frame : α × α) (hc : st.consumer = []) :
    (processFrame len st frame).2 = frame
    ∧ (processFrame len st frame).1.starvedLogs = st.starvedLogs + 1 := by
  unfold processFrame
  rw [hc]
  dsimp only
  split
  · split <;> exact ⟨rfl, rfl⟩
  · exact ⟨rfl, rfl⟩

theorem processFrame_starved_empty {α : Type} (len : ℕ)
    (st : CallbackState α) (frame : α × α) (hc : st.consumer = [])
    (hb : st.bufferQueue = []) :
    (processFrame len st frame).2 = frame
    ∧ (processFrame len st frame).1.starvedLogs = st.starvedLogs + 1
    ∧ (processFrame len st frame).1.consumer = []
    ∧ (processFrame len st frame).1.bufferQueue = [] := by
  unfold processFrame
  rw [hc, hb]
  dsimp only
  split
  · exact ⟨rfl, rfl, rfl, rfl⟩
  · exact ⟨rfl, rfl, rfl, rfl⟩

theorem audioCallback_starved {α : Type} (len : ℕ) (data : List (α × α)) :
    ∀ st : CallbackState α, st.consumer = [] → st.bufferQueue = [] →
      (audioCallback len st data).2 = data
      ∧ (audioCallback len st data).1.starvedLogs
          = st.starvedLogs + data.length := by
  induction data with
  | nil =>
      intro st hc hb
      exact ⟨rfl, rfl⟩
  | cons frame rest ih =>
      intro st hc hb
      obtain ⟨h1, h2, h3, h4⟩ := processFrame_starved_empty len st frame hc hb
      obtain ⟨ih1, ih2⟩ := ih (processFrame len st frame).1 h3 h4
      unfold audioCallback
      refine ⟨?_, ?_⟩
      · dsimp only
        rw [ih1, h1]
      · dsimp only
        rw [ih2, h2, List.length_cons]
        omega

theorem runOps_one_zero :
    runOps (List.replicate 1 VoiceOp.tick) zeroVoice = some (zeroVoice, [0]) := by
  simp [runOps, List.replicate, zeroVoice_tick]

theorem producerIter_zero :
    producerIter 1 zeroProducer
      = some { queue := [[0]], osci := zeroVoice, prev := zeroVoice,
               frameCount := 1 } := by
  unfold producerIter
  rw [if_pos (by norm_num [zeroProducer])]
  simp only [zeroProducer]
  rw [runOps_one_zero]
  dsimp only
  rw [pushCap2]
  norm_num [ROLLBACK_FRAMES, WavetableInstance.clone]

/-! Claim theorems. -/

/-- C1: cloning a WavetableInstance and running any identical interleaved
sequence of tick / set_frequency / set_active / trigger calls on the
original and on the clone produces identical output sample sequences and
identical final states; equivalently, restoring the snapshot (the clone
is a full value copy, so restore(snapshot(v)) = v) and continuing to tick
reproduces bit-identical audio to never having snapshotted. -/
theorem wavetable_clone_rollback_deterministic (E : Type)
    (ops : List VoiceOp) (v : WavetableInstance E) :
    v.clone = v ∧ runOps ops v.clone = runOps ops v :=
  ⟨rfl, rfl⟩

/-- C2 (amended): one tick of a voice whose oscillator phase p satisfies
0 ≤ p < table_length returns
(table[floor p]/MAX * (1 - fract p) + table[(floor p + 1) % L]/MAX * fract p)
times the envelope's current amplitude; and the end-to-end voice with
table [0, 127, 255, 127], one table cycle spanning 4 ticks and envelope
amplitude fixed at 1 outputs 0, 127/255, 1, 127/255 (≈ 0.498) repeating
every 4 ticks. -/
theorem wavetable_tick_interpolation :
    (∀ (E : Type) (v : WavetableInstance E),
        0 ≤ v.oscillator.phase →
        v.oscillator.phase < (v.definition.data.length : ℚ) →
        ∃ v2, v.tick = some (v2,
          ((v.definition.data.getD (⌊v.oscillator.phase⌋).toNat 0 : ℚ)
              / (wavetableBitDepthMax : ℚ)
              * (1 - (v.oscillator.phase - (⌊v.oscillator.phase⌋ : ℚ)))
            + (v.definition.data.getD
                (((⌊v.oscillator.phase⌋).toNat + 1)
                  % v.definition.data.length) 0 : ℚ)
              / (wavetableBitDepthMax : ℚ)
              * (v.oscillator.phase - (⌊v.oscillator.phase⌋ : ℚ)))
          * (v.envelope.tick v.active).2))
    ∧ ∀ k : ℕ,
        runOps (List.replicate (4 * k) VoiceOp.tick) testVoice
          = some (testVoice,
              (List.replicate k ([0, 127 / 255, 1, 127 / 255] : List ℚ)).flatten) :=
  ⟨fun _ v h0 h1 => ⟨_, tick_eq_of_lt v h0 h1⟩, testVoice_periodic⟩

/-- Witness for C2: the interpolation formula instantiated at the
end-to-end test voice, with both hypotheses discharged concretely. -/
theorem wavetable_tick_interpolation_witness :
    0 ≤ testVoice.oscillator.phase
    ∧ testVoice.oscillator.phase < (testVoice.definition.data.length : ℚ)
    ∧ ∃ v2, testVoice.tick = some (v2,
        ((testVoice.definition.data.getD (⌊testVoice.oscillator.phase⌋).toNat 0 : ℚ)
            / (wavetableBitDepthMax : ℚ)
            * (1 - (testVoice.oscillator.phase - (⌊testVoice.oscillator.phase⌋ : ℚ)))
          + (testVoice.definition.data.getD
              (((⌊testVoice.oscillator.phase⌋).toNat + 1)
                % testVoice.definition.data.length) 0 : ℚ)
            / (wavetableBitDepthMax : ℚ)
            * (testVoice.oscillator.phase - (⌊testVoice.oscillator.phase⌋ : ℚ)))
        * (testVoice.envelope.tick testVoice.active).2) :=
  ⟨by norm_num [testVoice, testVoiceAt, testOsc],
   by norm_num [testVoice, testVoiceAt, testOsc, testDef],
   wavetable_tick_interpolation.1 Unit testVoice
     (by norm_num [testVoice, testVoiceAt, testOsc])
     (by norm_num [testVoice, testVoiceAt, testOsc, testDef])⟩

/-- Counterexample for C2 as stated: on the end-to-end voice the second
output of each 4-tick cycle is 127/255 = 0.4980..., not the stated 0.498
exactly. -/
theorem wavetable_tick_sequence_counterexample :
    runOps (List.replicate 4 VoiceOp.tick) testVoice
        = some (testVoice, [0, 127 / 255, 1, 127 / 255])
    ∧ ([0, 127 / 255, 1, 127 / 255] : List ℚ) ≠ [0, 0.498, 1, 0.498] :=
  ⟨testVoice_cycle, by norm_num⟩

/-- C5: a voice in active state Trigger is in active state Off after
exactly one (non-panicking) tick, whatever its envelope does; all later
ticks therefore see an Off voice. -/
theorem trigger_clears_after_one_tick (E : Type)
    (v v2 : WavetableInstance E) (out : ℚ)
    (hT : v.active = ActiveState.Trigger)
    (h : v.tick = some (v2, out)) :
    v2.active = ActiveState.Off := by
  simp only [WavetableInstance.tick] at h
  split at h
  · rw [Option.some_inj] at h
    have h1 := congrArg Prod.fst h
    dsimp only at h1
    rw [← h1]
    simp [hT]
  · exact absurd h (by simp)

/-- Witness for C5: the silent one-entry voice, triggered then ticked
once, ends Off. -/
theorem trigger_clears_after_one_tick_witness :
    zeroVoice.trigger.active = ActiveState.Trigger
    ∧ zeroVoice.trigger.tick = some (zeroVoice, 0)
    ∧ zeroVoice.active = ActiveState.Off :=
  ⟨rfl, zeroTrig_tick,
   trigger_clears_after_one_tick Unit zeroVoice.trigger zeroVoice 0 rfl
     zeroTrig_tick⟩

/-- C9: for a voice with a non-empty table and oscillator phase p with
0 ≤ p < table_length, both table reads of tick() are in bounds — the
unwrapped first index floor(p) because of the phase invariant, the
second index (floor(p) + 1) % table_length always — and tick() does not
panic. -/
theorem tick_table_reads_in_bounds (E : Type) (v : WavetableInstance E)
    (hne : 0 < v.definition.data.length)
    (h0 : 0 ≤ v.oscillator.phase)
    (h1 : v.oscillator.phase < (v.definition.data.length : ℚ)) :
    (⌊v.oscillator.phase⌋).toNat < v.definition.data.length
    ∧ ((⌊v.oscillator.phase⌋).toNat + 1) % v.definition.data.length
        < v.definition.data.length
    ∧ (v.tick).isSome = true := by
  refine ⟨floor_toNat_lt_of_lt h0 (by exact_mod_cast h1),
    Nat.mod_lt _ hne, ?_⟩
  rw [tick_eq_of_lt v h0 h1]
  rfl

/-- Witness for C9: the silent one-entry voice satisfies the phase
invariant and its tick is in bounds and panic-free. -/
theorem tick_table_reads_in_bounds_witness :
    0 < zeroVoice.definition.data.length
    ∧ 0 ≤ zeroVoice.oscillator.phase
    ∧ zeroVoice.oscillator.phase < (zeroVoice.definition.data.length : ℚ)
    ∧ ((⌊zeroVoice.oscillator.phase⌋).toNat < zeroVoice.definition.data.length
       ∧ ((⌊zeroVoice.oscillator.phase⌋).toNat + 1)
           % zeroVoice.definition.data.length
           < zeroVoice.definition.data.length
       ∧ (zeroVoice.tick).isSome = true) :=
  ⟨by norm_num [zeroVoice],
   by norm_num [zeroVoice, WavetableOscillator.new],
   by norm_num [zeroVoice, WavetableOscillator.new],
   tick_table_reads_in_bounds Unit zeroVoice (by norm_num [zeroVoice])
     (by norm_num [zeroVoice, WavetableOscillator.new])
     (by norm_num [zeroVoice, WavetableOscillator.new])⟩

/-- C4: in every one of the 12 algorithm definitions, every operator
index referenced by the ModulatedBy entry for operator i (entry
modulators[i-1], i in 1..=3) is strictly less than i, so ascending-index
evaluation never reads an operator output before it is computed and no
algorithm defines a cycle. -/
theorem fm_algorithm_dependency_safe :
    ∀ n < 12, ((Algorithm.mk n).get_definition.map modsBelow) = some true := by
  decide

/-- Witness for C4: the serial algorithm 0 is dependency-safe. -/
theorem fm_algorithm_dependency_safe_witness :
    0 < 12 ∧ ((Algorithm.mk 0).get_definition.map modsBelow) = some true :=
  ⟨by decide, fm_algorithm_dependency_safe 0 (by decide)⟩

set_option maxRecDepth 4000 in
/-- C6: for every u8 value n, get_definition returns a definition without
reaching the panic branch when n ≤ 11, and panics (none) for every
n > 11: an invalid algorithm index is a fatal contract violation, not a
silently degraded result. -/
theorem algorithm_index_contract :
    ∀ n ≤ 255,
      (n ≤ 11 → ((Algorithm.mk n).get_definition).isSome = true)
      ∧ (11 < n → (Algorithm.mk n).get_definition = none) := by
  decide

/-- Witness for C6: index 5 yields a definition, index 12 panics. -/
theorem algorithm_index_contract_witness :
    5 ≤ 255 ∧ 12 ≤ 255
    ∧ ((Algorithm.mk 5).get_definition).isSome = true
    ∧ (Algorithm.mk 12).get_definition = none :=
  ⟨by decide, by decide,
   (algorithm_index_contract 5 (by decide)).1 (by decide),
   (algorithm_index_contract 12 (by decide)).2 (by decide)⟩

/-- C8: algorithm 0 is the serial topology A→B→C→D (only operator 3 is a
carrier and each operator i in 1..=3 is modulated exactly by operator
i-1), and algorithm 11 is four independent carriers with no modulation
at all. -/
theorem algorithm_topologies_0_and_11 :
    (Algorithm.mk 0).get_definition
        = some { carriers := [false, false, false, true],
                 modulators := [ModulatedBy.Single 0, ModulatedBy.Single 1,
                                ModulatedBy.Single 2] }
    ∧ (Algorithm.mk 11).get_definition
        = some { carriers := [true, true, true, true],
                 modulators := [ModulatedBy.None, ModulatedBy.None,
                                ModulatedBy.None] } :=
  ⟨rfl, rfl⟩

/-- C3 (amended): whenever the inner sample queue has no sample ready
(pop fails), the real-time callback leaves the output frame slot's
existing contents unchanged (it does not write to it) and logs a
non-fatal starved condition, never blocking; draining with zero frames
queued leaves the whole output buffer unchanged with one starved log per
slot, and playback continues on the next delivered frame. -/
theorem audio_callback_underrun :
    (∀ (α : Type) (len : ℕ) (st : CallbackState α) (frame : α × α),
        st.consumer = [] →
        (processFrame len st frame).2 = frame
        ∧ (processFrame len st frame).1.starvedLogs = st.starvedLogs + 1)
    ∧ (∀ (α : Type) (len : ℕ) (st : CallbackState α) (data : List (α × α)),
        st.consumer = [] → st.bufferQueue = [] →
        (audioCallback len st data).2 = data
        ∧ (audioCallback len st data).1.starvedLogs
            = st.starvedLogs + data.length)
    ∧ audioCallback 1 (⟨[], [[7, 8]], 0, 0, 0⟩ : CallbackState ℤ)
        [(5, 5), (9, 9)]
        = (⟨[8], [], 0, 1, 1⟩, [(5, 5), (7, 7)]) :=
  ⟨fun _ len st frame hc => processFrame_starved len st frame hc,
   fun _ len st data hc hb => audioCallback_starved len data st hc hb,
   by set_option maxRecDepth 4000 in decide⟩

/-- Witness for C3: a starved slot and a starved two-slot drain on
concrete integer sample states, hypotheses discharged concretely. -/
theorem audio_callback_underrun_witness :
    (processFrame 3 (⟨[], [], 0, 0, 0⟩ : CallbackState ℤ) (2, 2)).2 = (2, 2)
    ∧ (processFrame 3 (⟨[], [], 0, 0, 0⟩ : CallbackState ℤ)
        (2, 2)).1.starvedLogs = 0 + 1
    ∧ (audioCallback 3 (⟨[], [], 0, 0, 0⟩ : CallbackState ℤ)
        [(2, 2), (4, 4)]).2 = [(2, 2), (4, 4)]
    ∧ (audioCallback 3 (⟨[], [], 0, 0, 0⟩ : CallbackState ℤ)
        [(2, 2), (4, 4)]).1.starvedLogs = 0 + [(2, 2), (4, 4)].length :=
  ⟨(audio_callback_underrun.1 ℤ 3 ⟨[], [], 0, 0, 0⟩ (2, 2) rfl).1,
   (audio_callback_underrun.1 ℤ 3 ⟨[], [], 0, 0, 0⟩ (2, 2) rfl).2,
   (audio_callback_underrun.2.1 ℤ 3 ⟨[], [], 0, 0, 0⟩
     [(2, 2), (4, 4)] rfl rfl).1,
   (audio_callback_underrun.2.1 ℤ 3 ⟨[], [], 0, 0, 0⟩
     [(2, 2), (4, 4)] rfl rfl).2⟩

/-- Counterexample for C3 as stated: with the inner queue empty the
callback leaves a non-zero slot value (5, 5) in place rather than
writing zero-valued (silent) samples. -/
theorem audio_callback_underrun_counterexample :
    processFrame 10 (⟨[], [], 0, 0, 0⟩ : CallbackState ℤ) (5, 5)
        = (⟨[], [], 1, 1, 0⟩, (5, 5))
    ∧ ((5, 5) : ℤ × ℤ) ≠ ((0, 0) : ℤ × ℤ) := by
  set_option maxRecDepth 4000 in decide

/-- C7: one producer-loop iteration pushes exactly one freshly rendered
frame when the outer queue (capacity 2) is not full, leaves the state
untouched (sleeping) when it is full, never attempts a push onto a full
queue, never overwrites a queued frame (the old queue is a prefix of the
new one), and never drops a rendered frame (whatever was rendered is
what is pushed). -/
theorem producer_loop_push_discipline (E : Type) (len : ℕ)
    (st : ProducerState E) :
    (2 ≤ st.queue.length → producerIter len st = some st)
    ∧ ∀ st2, producerIter len st = some st2 →
        st2.queue.take st.queue.length = st.queue
        ∧ (st.queue.length < 2 →
            ∃ v2 buf, runOps (List.replicate len VoiceOp.tick) st.osci
                = some (v2, buf)
              ∧ st2.queue = st.queue ++ [buf]) := by
  constructor
  · intro hfull
    unfold producerIter
    rw [if_neg (by omega)]
  · intro st2 h
    unfold producerIter at h
    by_cases hlt : st.queue.length < 2
    · rw [if_pos hlt] at h
      cases hr : runOps (List.replicate len VoiceOp.tick) st.osci with
      | none => rw [hr] at h; exact absurd h (by simp)
      | some r =>
          obtain ⟨v2, buf⟩ := r
          rw [hr] at h
          dsimp only at h
          rw [pushCap2, if_pos hlt] at h
          dsimp only at h
          have hq : st2.queue = st.queue ++ [buf] := by
            split at h <;>
              exact (congrArg ProducerState.queue (Option.some_inj.mp h)).symm
          refine ⟨?_, fun _ => ⟨v2, buf, rfl, hq⟩⟩
          rw [hq]
          exact List.take_left _ _
    · rw [if_neg hlt] at h
      rw [Option.some_inj] at h
      subst h
      exact ⟨List.take_length st.queue, fun hc => absurd hc hlt⟩

/-- Witness for C7: one iteration from the empty-queue producer state
over the silent voice pushes exactly the rendered one-sample frame. -/
theorem producer_loop_push_discipline_witness :
    producerIter 1 zeroProducer
        = some { queue := [[0]], osci := zeroVoice, prev := zeroVoice,
                 frameCount := 1 }
    ∧ (({ queue := [[0]], osci := zeroVoice, prev := zeroVoice,
          frameCount := 1 } : ProducerState Unit) :
        ProducerState Unit).queue.take zeroProducer.queue.length
        = zeroProducer.queue
    ∧ ∃ v2 buf,
        runOps (List.replicate 1 VoiceOp.tick) zeroProducer.osci
            = some (v2, buf)
        ∧ (({ queue := [[0]], osci := zeroVoice, prev := zeroVoice,
              frameCount := 1 } : ProducerState Unit)).queue
            = zeroProducer.queue ++ [buf] :=
  ⟨producerIter_zero,
   ((producer_loop_push_discipline Unit 1 zeroProducer).2 _
     producerIter_zero).1,
   ((producer_loop_push_discipline Unit 1 zeroProducer).2 _
     producerIter_zero).2 (by norm_num [zeroProducer])⟩

/-- C10: set_active(b) puts the voice in exactly On (b = true) or Off
(b = false) whatever the prior state was — in particular it overwrites a
pending Trigger — and set_active and trigger leave the definition,
oscillator and envelope fields unchanged. -/
theorem set_active_trigger_effects (E : Type) (v : WavetableInstance E)
    (b : Bool) :
    (v.set_active b).active
        = (if b then ActiveState.On else ActiveState.Off)
    ∧ (v.set_active b).definition = v.definition
    ∧ (v.set_active b).oscillator = v.oscillator
    ∧ (v.set_active b).envelope = v.envelope
    ∧ v.trigger.active = ActiveState.Trigger
    ∧ v.trigger.definition = v.definition
    ∧ v.trigger.oscillator = v.oscillator
    ∧ v.trigger.envelope = v.envelope :=
  ⟨rfl, rfl, rfl, rfl, rfl, rfl, rfl, rfl⟩

end Gamercade
